import Mathlib

/-
Verification development for the issue-manager pipeline
(src/src/lib/claude.ts and the executor loop of src/index.ts).

The source is TypeScript driving an external language model and the
Linear ticket API.  The embedding models the pure response-handling and
change-set logic of the source.  External JavaScript builtins and
third-party calls are represented as explicit parameters:
the outcome of JSON.parse is a decoder argument, the Anthropic
completion is a ContentBlock argument (its first content element), and
the Linear mutation API is an environment function from requests to
results.  JavaScript String.prototype.trim is modelled by jsTrim below.
-/

/-- JavaScript whitespace test backing the model of String.prototype.trim. -/
def isJsWhitespaceChar (c : Char) : Bool :=
  c = ' ' || c = '\t' || c = '\n' || c = '\r' || c = '\x0b' || c = '\x0c'

/-- Model of the JavaScript builtin String.prototype.trim used throughout
src/src/lib/claude.ts: removes leading and trailing whitespace. -/
def jsTrim (s : String) : String :=
  String.mk (((s.data.dropWhile isJsWhitespaceChar).reverse.dropWhile
    isJsWhitespaceChar).reverse)

/-- Issue type enumeration of ExtractedIssue, claude.ts line 32. -/
inductive IssueType
  | bug
  | feature
  | improvement
  | question
deriving DecidableEq

/-- Priority enumeration of ExtractedIssue, claude.ts line 33. -/
inductive Priority
  | low
  | medium
  | high
  | urgent
deriving DecidableEq

/-- ExtractedIssue record, claude.ts lines 29 to 34. -/
structure ExtractedIssue where
  title : String
  description : String
  type : IssueType
  priority : Priority
deriving DecidableEq

/-- Modelled from the spec: the ExternalTicket record of the snapshot
fetched from Linear.  The source type Issue lives in src/src/lib/linear.ts,
which is not part of the provided sources; the fields follow the spec's
data model (id, identifier, title, optional description, numeric priority,
state label).  Only id and identifier are consulted by the code under
verification. -/
structure Issue where
  id : String
  identifier : String
  title : String
  description : Option String
  priority : Int
  state : String
deriving DecidableEq

/-- Action enumeration of ProcessedIssue, claude.ts line 38. -/
inductive ActionKind
  | create
  | update
  | comment
deriving DecidableEq

/-- ProcessedIssue record, claude.ts lines 36 to 42.  Optional fields of
the TypeScript record are Option values here. -/
structure ProcessedIssue where
  extractedIssue : ExtractedIssue
  action : ActionKind
  matchedIssueId : Option String
  matchedIssueIdentifier : Option String
  reason : String
deriving DecidableEq

/-- One entry of the parsed matcher response, claude.ts lines 236 to 241.
The JSON number issueIndex is modelled as an integer. -/
structure MatchEntry where
  issueIndex : Int
  action : ActionKind
  matchedIssueIdentifier : Option String
  reason : String
deriving DecidableEq

/-- First content block of an Anthropic completion: either a text block
carrying the model text, or a block of some other kind (for instance a
tool-use block). -/
inductive ContentBlock
  | text (s : String)
  | nonText (kind : String)
deriving DecidableEq

/-- Errors thrown by the response handlers of claude.ts.
unexpectedResponseKind models the throw on a non-text content block
(message Expected text response from Claude); invalidJson models the
throw after a JSON.parse failure, carrying the source message. -/
inductive ClaudeErr
  | unexpectedResponseKind
  | invalidJson (message : String)
deriving DecidableEq

/-- JSON values, the possible results of the JavaScript builtin JSON.parse.
JSON numbers are modelled as integers, which covers every numeric field the
code under verification reads (issueIndex). -/
inductive Json
  | null
  | bool (b : Bool)
  | num (n : Int)
  | str (s : String)
  | arr (elems : List Json)
  | obj (fields : List (String × Json))

/-- One option of an enrichment question, claude.ts line 274. -/
structure QuestionOption where
  label : String
  value : String
deriving DecidableEq

/-- EnrichmentQuestion record, claude.ts lines 272 to 275. -/
structure EnrichmentQuestion where
  question : String
  options : List QuestionOption
deriving DecidableEq

/-- Response handling of extractIssuesStructured, claude.ts lines 147 to
161.  jsonParse stands for the JavaScript builtin JSON.parse (returning
none on a syntax error); content is the first content block of the
completion.  The source prepends the primed opening bracket to the trimmed
model text, parses, and returns the parsed value unchecked (the TypeScript
cast performs no validation), so the result type is the raw Json value. -/
def extractIssuesStructured (jsonParse : String → Option Json)
    (content : ContentBlock) : Except ClaudeErr Json :=
  match content with
  | ContentBlock.nonText _ => Except.error ClaudeErr.unexpectedResponseKind
  | ContentBlock.text t =>
    match jsonParse ("[" ++ jsTrim t) with
    | none => Except.error (ClaudeErr.invalidJson "Claude did not return valid JSON")
    | some j => Except.ok j

/-- Bounds check of the matcher filter, claude.ts lines 244 to 250: an
entry is kept exactly when its issueIndex is neither negative nor at least
the number of extracted issues. -/
def validIndex (n : Nat) (m : MatchEntry) : Bool :=
  !(decide (m.issueIndex < 0) || decide (m.issueIndex ≥ (n : Int)))

/-- Mapping step of the matcher, claude.ts lines 252 to 264.  The
matchedIssueIdentifier is looked up in the existing snapshot only when it
is truthy in JavaScript (present and nonempty); matchedIssueId is the id
of the found ticket, if any, and the model-chosen action is copied
through unchanged. -/
def resolveMatch (extracted : List ExtractedIssue) (existing : List Issue)
    (m : MatchEntry) : ProcessedIssue :=
  let matchedIssue : Option Issue :=
    match m.matchedIssueIdentifier with
    | some s => if s = "" then none else existing.find? (fun t => t.identifier == s)
    | none => none
  { extractedIssue := extracted.getD m.issueIndex.toNat ⟨"", "", IssueType.bug, Priority.low⟩,
    action := m.action,
    matchedIssueId := matchedIssue.map (fun t => t.id),
    matchedIssueIdentifier := m.matchedIssueIdentifier,
    reason := m.reason }

/-- Post-parse core of matchIssuesToLinear, claude.ts lines 243 to 264:
filter the parsed entries by the bounds check, then map each surviving
entry through the resolution step. -/
def matchIssuesCore (extracted : List ExtractedIssue) (existing : List Issue)
    (ms : List MatchEntry) : List ProcessedIssue :=
  (ms.filter (validIndex extracted.length)).map (resolveMatch extracted existing)

/-- Response handling of matchIssuesToLinear, claude.ts lines 229 to 269.
decode stands for JSON.parse followed by the unchecked cast to the typed
entry array; content is the first content block of the completion. -/
def matchIssuesToLinear (decode : String → Option (List MatchEntry))
    (extracted : List ExtractedIssue) (existing : List Issue)
    (content : ContentBlock) : Except ClaudeErr (List ProcessedIssue) :=
  match content with
  | ContentBlock.nonText _ => Except.error ClaudeErr.unexpectedResponseKind
  | ContentBlock.text t =>
    match decode ("[" ++ jsTrim t) with
    | none => Except.error (ClaudeErr.invalidJson "Claude did not return valid JSON for matching")
    | some ms => Except.ok (matchIssuesCore extracted existing ms)

/-- Response handling of generateTranscriptEnrichmentQuestions, claude.ts
lines 82 to 95. -/
def generateTranscriptEnrichmentQuestions
    (decode : String → Option (List EnrichmentQuestion))
    (content : ContentBlock) : Except ClaudeErr (List EnrichmentQuestion) :=
  match content with
  | ContentBlock.nonText _ => Except.error ClaudeErr.unexpectedResponseKind
  | ContentBlock.text t =>
    match decode ("[" ++ jsTrim t) with
    | none => Except.error (ClaudeErr.invalidJson "Claude did not return valid JSON for enrichment questions")
    | some qs => Except.ok qs

/-- Response handling of generateEnrichmentQuestions, claude.ts lines 379
to 392. -/
def generateEnrichmentQuestions
    (decode : String → Option (List EnrichmentQuestion))
    (content : ContentBlock) : Except ClaudeErr (List EnrichmentQuestion) :=
  match content with
  | ContentBlock.nonText _ => Except.error ClaudeErr.unexpectedResponseKind
  | ContentBlock.text t =>
    match decode ("[" ++ jsTrim t) with
    | none => Except.error (ClaudeErr.invalidJson "Claude did not return valid JSON for enrichment questions")
    | some qs => Except.ok qs

/-- Strict date pattern of claude.ts line 324: exactly four digits, a
hyphen, two digits, a hyphen, two digits. -/
def isIsoDateFormat (s : String) : Bool :=
  match s.data with
  | [y1, y2, y3, y4, h1, m1, m2, h2, d1, d2] =>
    y1.isDigit && y2.isDigit && y3.isDigit && y4.isDigit &&
    h1 = '-' && m1.isDigit && m2.isDigit && h2 = '-' && d1.isDigit && d2.isDigit
  | _ => false

/-- Outcome of parseDeadlineToDate together with whether the Anthropic
gateway was invoked (the source returns before the API call when the
phrase is empty or whitespace-only). -/
structure DeadlineOutcome where
  calledGateway : Bool
  result : Option String
deriving DecidableEq

/-- Model of parseDeadlineToDate, claude.ts lines 281 to 330.  The guard
mirrors the JavaScript condition on line 282 (falsy string or
whitespace-only).  content is the first content block of the completion,
consulted only past the guard; a non-text block yields null (line 313),
the literal null yields null (line 319), a response matching the strict
date pattern is returned (line 325), and anything else yields null. -/
def parseDeadlineToDate (deadline : String) (content : ContentBlock) :
    DeadlineOutcome :=
  if deadline = "" ∨ jsTrim deadline = "" then ⟨false, none⟩
  else
    ⟨true,
      match content with
      | ContentBlock.nonText _ => none
      | ContentBlock.text t =>
        let result := jsTrim t
        if result = "null" then none
        else if isIsoDateFormat result then some result
        else none⟩

/-- Requests the executor loop of index.ts issues against the Linear API:
createIssue (line 823), updateIssue (line 832) and addCommentToIssue
(line 837), with the argument records flattened. -/
inductive ExtRequest
  | createReq (teamId title description : String) (priority : Nat) (dueDate : Option String)
  | updateReq (issueId description : String)
  | commentReq (issueId body : String)
deriving DecidableEq

/-- Priority mapping of the create branch, index.ts line 821. -/
def priorityMap : Priority → Nat
  | Priority.low => 1
  | Priority.medium => 2
  | Priority.high => 3
  | Priority.urgent => 4

/-- Results accumulator of the executor, index.ts lines 809 to 813. -/
structure RunResults where
  created : List String
  updated : List String
  commented : List String
deriving DecidableEq

/-- Initial empty results record, index.ts lines 809 to 813. -/
def emptyResults : RunResults := ⟨[], [], []⟩

/-- Outcome of the executor loop: success carries the final results; a
failure carries the results accumulated before the failing action and the
title of the failing candidate (index.ts line 844). -/
inductive ExecOutcome
  | success (results : RunResults)
  | failure (resultsSoFar : RunResults) (failedTitle : String)
deriving DecidableEq

/-- JavaScript truthiness filter on an optional string: the due-date
spread of index.ts line 828 attaches the field only when the value is
neither null nor undefined nor empty. -/
def jsTruthyStr : Option String → Option String
  | some s => if s = "" then none else some s
  | none => none

/-- JavaScript or-else on strings, index.ts lines 835 and 841: the left
operand wins unless it is undefined or empty. -/
def orElseJs (a : Option String) (b : String) : String :=
  match a with
  | some s => if s = "" then b else s
  | none => b

/-- Create request assembled by the create branch, index.ts lines 823 to
829: team, title, description, mapped priority, and the due date resolved
for this loop index when one is present and truthy. -/
def createRequest (teamId : String) (deadlines : Nat → Option String)
    (i : Nat) (issue : ExtractedIssue) : ExtRequest :=
  ExtRequest.createReq teamId issue.title issue.description
    (priorityMap issue.priority) (jsTruthyStr (deadlines i))

/-- One iteration body of the executor loop, index.ts lines 819 to 842.
env stands for the Linear mutation API: it maps a request to an error or
to a result payload (the created issue identifier for a create request;
the payload of update and comment responses is unused by the source).
deadlines models the issueDeadlines map keyed by loop index; an absent or
null entry are both none.  An update or comment whose matchedIssueId is
unset or empty matches no branch and leaves the results unchanged. -/
def execStep (env : ExtRequest → Except String String) (teamId : String)
    (deadlines : Nat → Option String) (i : Nat) (item : ProcessedIssue)
    (res : RunResults) : Except String RunResults :=
  match item.action, item.matchedIssueId with
  | ActionKind.create, _ =>
    match env (createRequest teamId deadlines i item.extractedIssue) with
    | Except.error e => Except.error e
    | Except.ok newIdentifier =>
      Except.ok { res with created := res.created ++ [newIdentifier] }
  | ActionKind.update, some mid =>
    if mid = "" then Except.ok res
    else
      match env (ExtRequest.updateReq mid item.extractedIssue.description) with
      | Except.error e => Except.error e
      | Except.ok _ =>
        Except.ok { res with updated := res.updated ++ [orElseJs item.matchedIssueIdentifier mid] }
  | ActionKind.comment, some mid =>
    if mid = "" then Except.ok res
    else
      match env (ExtRequest.commentReq mid ("New feedback:\n" ++ item.extractedIssue.description)) with
      | Except.error e => Except.error e
      | Except.ok _ =>
        Except.ok { res with commented := res.commented ++ [orElseJs item.matchedIssueIdentifier mid] }
  | _, none => Except.ok res

/-- Executor loop of index.ts lines 815 to 848: strictly sequential; on
the first failing external call it stops at once, reporting the failing
candidate's title, and never touches the remaining actions. -/
def execLoop (env : ExtRequest → Except String String) (teamId : String)
    (deadlines : Nat → Option String) :
    Nat → RunResults → List ProcessedIssue → ExecOutcome
  | _, res, [] => ExecOutcome.success res
  | i, res, item :: rest =>
    match execStep env teamId deadlines i item res with
    | Except.error _ => ExecOutcome.failure res item.extractedIssue.title
    | Except.ok res2 => execLoop env teamId deadlines (i + 1) res2 rest

/-- Full executor run, index.ts lines 809 to 850: the loop starts at index
zero with empty results. -/
def runExecutor (env : ExtRequest → Except String String) (teamId : String)
    (deadlines : Nat → Option String) (items : List ProcessedIssue) : ExecOutcome :=
  execLoop env teamId deadlines 0 emptyResults items

/-- Field lookup on a parsed JSON object (JavaScript property access on
the parse result). -/
def lookupField (fields : List (String × Json)) (key : String) : Option Json :=
  (fields.find? (fun kv => kv.1 == key)).map (fun kv => kv.2)

/-- String-valued field of a parsed JSON object, if present. -/
def stringField (fields : List (String × Json)) (key : String) : Option String :=
  match lookupField fields key with
  | some (Json.str s) => some s
  | _ => none

/-- Membership in the issue type enumeration of claude.ts line 32. -/
def isIssueTypeName (s : String) : Bool :=
  s = "bug" || s = "feature" || s = "improvement" || s = "question"

/-- Membership in the priority enumeration of claude.ts line 33. -/
def isPriorityName (s : String) : Bool :=
  s = "low" || s = "medium" || s = "high" || s = "urgent"

/-- Structural contract of a candidate issue element, per the
ExtractedIssue type of claude.ts lines 29 to 34: an object with string
title and description, a type drawn from the issue type enumeration and a
priority drawn from the priority enumeration. -/
def wellFormedCandidate (j : Json) : Bool :=
  match j with
  | Json.obj fields =>
    (match stringField fields "title" with
     | some _ => true
     | none => false) &&
    (match stringField fields "description" with
     | some _ => true
     | none => false) &&
    (match stringField fields "type" with
     | some s => isIssueTypeName s
     | none => false) &&
    (match stringField fields "priority" with
     | some s => isPriorityName s
     | none => false)
  | _ => false

/-- Concrete extracted candidate used by witnesses and counterexamples. -/
def fixIssueA : ExtractedIssue :=
  ⟨"Slow dashboard", "Dashboard loads slowly for all users", IssueType.bug, Priority.high⟩

/-- Second concrete extracted candidate. -/
def fixIssueB : ExtractedIssue :=
  ⟨"Mobile export broken", "Export button does nothing on mobile", IssueType.bug, Priority.urgent⟩

/-- Concrete candidate list of length two. -/
def fixExtracted : List ExtractedIssue := [fixIssueA, fixIssueB]

/-- Concrete existing ticket in the snapshot. -/
def fixTicket : Issue :=
  ⟨"lin-uuid-1", "ACME-1", "Dashboard performance", some "Slow dashboards reported", 2, "Todo"⟩

/-- Concrete snapshot with a single ticket. -/
def fixExisting : List Issue := [fixTicket]

/-- Matcher entry whose identifier resolves against the snapshot. -/
def fixEntryResolvable : MatchEntry :=
  ⟨0, ActionKind.update, some "ACME-1", "matches the performance ticket"⟩

/-- Matcher entry naming an identifier absent from the snapshot. -/
def fixEntryUnresolvable : MatchEntry :=
  ⟨0, ActionKind.update, some "ACME-999", "matches a ticket absent from the snapshot"⟩

/-- Matcher entry reusing the index of fixEntryResolvable. -/
def fixEntryDup : MatchEntry :=
  ⟨0, ActionKind.comment, some "ACME-1", "also related to the performance ticket"⟩

/-- Matcher entry with an index beyond the candidate list. -/
def fixEntryOutOfRange : MatchEntry :=
  ⟨5, ActionKind.create, none, "index beyond the candidate list"⟩

/-- Element of a model extraction response whose type field is outside the
issue type enumeration. -/
def badIssueElem : Json :=
  Json.obj [("title", Json.str "Broken export"),
            ("description", Json.str "Export fails on mobile"),
            ("type", Json.str "banana"),
            ("priority", Json.str "high")]

/-- Model extraction response text (after the primed bracket is removed by
the assistant prefill) that is valid JSON but carries the malformed type
field of badIssueElem. -/
def badIssueText : String :=
  "\x7b\"title\": \"Broken export\", \"description\": \"Export fails on mobile\", \"type\": \"banana\", \"priority\": \"high\"\x7d]"

/-- Stub for JSON.parse on the counterexample response: on the primed
counterexample text it returns the corresponding array, exactly as the
JavaScript builtin would, and rejects every other input. -/
def badIssueParse (s : String) : Option Json :=
  if s = "[" ++ badIssueText then some (Json.arr [badIssueElem]) else none

/-- Create action fixture A. -/
def fixCreateA : ProcessedIssue :=
  ⟨⟨"Issue A", "descA", IssueType.bug, Priority.low⟩, ActionKind.create, none, none, "no similar ticket"⟩

/-- Create action fixture B, on which the stub store fails. -/
def fixCreateB : ProcessedIssue :=
  ⟨⟨"Issue B", "descB", IssueType.feature, Priority.medium⟩, ActionKind.create, none, none, "no similar ticket"⟩

/-- Create action fixture C, never reached in the fail-fast witness. -/
def fixCreateC : ProcessedIssue :=
  ⟨⟨"Issue C", "descC", IssueType.improvement, Priority.high⟩, ActionKind.create, none, none, "no similar ticket"⟩

/-- Update action whose matched ticket id is unset. -/
def fixSkipItem : ProcessedIssue :=
  ⟨⟨"Orphan update", "New details", IssueType.bug, Priority.low⟩, ActionKind.update, none,
   some "ACME-404", "matched identifier did not resolve"⟩

/-- Stub Linear store: creating Issue B raises, every other request
succeeds; a create returns an identifier derived from the title. -/
def fixEnv : ExtRequest → Except String String := fun r =>
  match r with
  | ExtRequest.createReq _ title _ _ _ =>
    if title = "Issue B" then Except.error "Linear API error"
    else Except.ok ("ACME-" ++ title)
  | ExtRequest.updateReq _ _ => Except.ok ""
  | ExtRequest.commentReq _ _ => Except.ok ""

/-- Claim C3: every parsed matcher entry whose issueIndex lies outside the
candidate range is dropped (the output length equals the count of in-range
entries), while every in-range entry is still resolved and returned, so
the output may be shorter than the candidate list; no error is raised
(the function is total and returns a plain list). -/
theorem c3_out_of_range_entries_dropped (extracted : List ExtractedIssue)
    (existing : List Issue) (ms : List MatchEntry) :
    (matchIssuesCore extracted existing ms).length =
      ms.countP (validIndex extracted.length) ∧
    (∀ m ∈ ms, validIndex extracted.length m = true →
      resolveMatch extracted existing m ∈ matchIssuesCore extracted existing ms) ∧
    (∀ o ∈ matchIssuesCore extracted existing ms,
      ∃ m, m ∈ ms ∧ validIndex extracted.length m = true ∧
        o = resolveMatch extracted existing m) := by
  refine ⟨?_, ?_, ?_⟩
  · simp [matchIssuesCore, List.countP_eq_length_filter]
  · intro m hm hv
    exact List.mem_map.2 ⟨m, List.mem_filter.2 ⟨hm, hv⟩, rfl⟩
  · intro o ho
    obtain ⟨m, hm, rfl⟩ := List.mem_map.1 ho
    have hmf := List.mem_filter.1 hm
    exact ⟨m, hmf.1, hmf.2, rfl⟩

/-- Witness for C3 on a concrete response containing one in-range and one
out-of-range entry. -/
theorem c3_witness :
    (matchIssuesCore fixExtracted fixExisting [fixEntryResolvable, fixEntryOutOfRange]).length =
      ([fixEntryResolvable, fixEntryOutOfRange].countP (validIndex fixExtracted.length)) ∧
    resolveMatch fixExtracted fixExisting fixEntryResolvable ∈
      matchIssuesCore fixExtracted fixExisting [fixEntryResolvable, fixEntryOutOfRange] := by
  have h := c3_out_of_range_entries_dropped fixExtracted fixExisting
    [fixEntryResolvable, fixEntryOutOfRange]
  exact ⟨h.1, h.2.1 fixEntryResolvable (by decide) (by decide)⟩

/-- Claim C9: entries reusing the same in-range issueIndex are all kept,
in response order; the matcher neither deduplicates by index nor gives
the last entry special treatment. -/
theorem c9_duplicate_indices_kept (extracted : List ExtractedIssue)
    (existing : List Issue) (pre mid post : List MatchEntry) (m1 m2 : MatchEntry)
    (h1 : validIndex extracted.length m1 = true)
    (h2 : m2.issueIndex = m1.issueIndex) :
    matchIssuesCore extracted existing (pre ++ m1 :: (mid ++ m2 :: post)) =
      matchIssuesCore extracted existing pre ++
        resolveMatch extracted existing m1 ::
          (matchIssuesCore extracted existing mid ++
            resolveMatch extracted existing m2 ::
              matchIssuesCore extracted existing post) := by
  have h2v : validIndex extracted.length m2 = true := by
    unfold validIndex at h1 ⊢
    rw [h2]
    exact h1
  simp [matchIssuesCore, List.filter_append, List.map_append, List.filter_cons, h1, h2v]

/-- Witness for C9: a concrete response in which a comment entry reuses
the index of an update entry; both survive. -/
theorem c9_witness :
    matchIssuesCore fixExtracted fixExisting [fixEntryResolvable, fixEntryDup] =
      [resolveMatch fixExtracted fixExisting fixEntryResolvable,
       resolveMatch fixExtracted fixExisting fixEntryDup] := by
  have h := c9_duplicate_indices_kept fixExtracted fixExisting [] [] []
    fixEntryResolvable fixEntryDup (by decide) rfl
  simpa [matchIssuesCore] using h

/-- Claim C5: for every in-range matcher entry, the resolved action is
kept in the output with the model-chosen action and identifier copied
through; matchedIssueId, when set, is the id of a snapshot ticket whose
identifier equals the entry's matchedIssueIdentifier (no fabricated
targets); it is set whenever the nonempty identifier matches some
snapshot ticket, and unset when no snapshot ticket matches. -/
theorem c5_matched_ticket_resolution (extracted : List ExtractedIssue)
    (existing : List Issue) (ms : List MatchEntry) (m : MatchEntry)
    (hm : m ∈ ms) (hv : validIndex extracted.length m = true) :
    resolveMatch extracted existing m ∈ matchIssuesCore extracted existing ms ∧
    (resolveMatch extracted existing m).action = m.action ∧
    (resolveMatch extracted existing m).matchedIssueIdentifier = m.matchedIssueIdentifier ∧
    (∀ tid, (resolveMatch extracted existing m).matchedIssueId = some tid →
      ∃ t ∈ existing, m.matchedIssueIdentifier = some t.identifier ∧ t.id = tid) ∧
    (∀ s, m.matchedIssueIdentifier = some s → s ≠ "" →
      (∃ t ∈ existing, t.identifier = s) →
      (resolveMatch extracted existing m).matchedIssueId.isSome = true) ∧
    ((∀ t ∈ existing, some t.identifier ≠ m.matchedIssueIdentifier) →
      (resolveMatch extracted existing m).matchedIssueId = none) := by
  refine ⟨List.mem_map.2 ⟨m, List.mem_filter.2 ⟨hm, hv⟩, rfl⟩, rfl, rfl, ?_, ?_, ?_⟩
  · intro tid htid
    cases hmi : m.matchedIssueIdentifier with
    | none => simp [resolveMatch, hmi] at htid
    | some s =>
      by_cases hs : s = ""
      · simp [resolveMatch, hmi, hs] at htid
      · simp only [resolveMatch, hmi, hs, if_neg hs, Option.map_eq_some'] at htid
        obtain ⟨t, hfind, hid⟩ := htid
        have hmem := List.mem_of_find?_eq_some hfind
        have hbeq := List.find?_some hfind
        rw [beq_iff_eq] at hbeq
        exact ⟨t, hmem, by rw [hbeq], hid⟩
  · intro s hmi hs hex
    obtain ⟨t, htmem, hts⟩ := hex
    have hfind : (existing.find? (fun u => u.identifier == s)).isSome = true := by
      rw [List.find?_isSome]
      exact ⟨t, htmem, by rw [beq_iff_eq]; exact hts⟩
    simp only [resolveMatch, hmi, if_neg hs, Option.isSome_map']
    exact hfind
  · intro hnone
    cases hmi : m.matchedIssueIdentifier with
    | none => simp [resolveMatch, hmi]
    | some s =>
      by_cases hs : s = ""
      · simp [resolveMatch, hmi, hs]
      · have hfind : existing.find? (fun u => u.identifier == s) = none := by
          rw [List.find?_eq_none]
          intro t htmem
          rw [beq_iff_eq]
          intro hts
          exact hnone t htmem (by rw [hmi, hts])
        simp [resolveMatch, hmi, hs, hfind]

/-- Witness for C5 on a concrete resolvable entry: the matched ticket id
is the snapshot ticket's id. -/
theorem c5_witness :
    (resolveMatch fixExtracted fixExisting fixEntryResolvable).matchedIssueId = some "lin-uuid-1" ∧
    (∃ t ∈ fixExisting, fixEntryResolvable.matchedIssueIdentifier = some t.identifier ∧
      t.id = "lin-uuid-1") ∧
    resolveMatch fixExtracted fixExisting fixEntryResolvable ∈
      matchIssuesCore fixExtracted fixExisting [fixEntryResolvable] := by
  have h := c5_matched_ticket_resolution fixExtracted fixExisting [fixEntryResolvable]
    fixEntryResolvable (by decide) (by decide)
  exact ⟨by decide, h.2.2.2.1 "lin-uuid-1" (by decide), h.1⟩

/-- Counterexample to claim C1 as stated: an update entry naming the
identifier ACME-999, which resolves to no snapshot ticket, is not dropped
from the matcher output; it is kept with matchedIssueId unset. -/
theorem c1_counterexample :
    matchIssuesCore fixExtracted fixExisting [fixEntryUnresolvable] =
      [⟨fixIssueA, ActionKind.update, none, some "ACME-999",
        "matches a ticket absent from the snapshot"⟩] := by
  decide

/-- Claim C1 (amended): for every matcher output entry with action update
or comment, matchedIssueId, when set, is the id of a ticket present in the
snapshot; when resolution of the model-named identifier fails the entry is
kept in the output with the model-chosen action and an unset
matchedIssueId (it is neither dropped nor promoted to create). -/
theorem c1_matcher_target_resolution (extracted : List ExtractedIssue)
    (existing : List Issue) (ms : List MatchEntry) :
    (∀ o ∈ matchIssuesCore extracted existing ms, o.action ≠ ActionKind.create →
      ∀ tid, o.matchedIssueId = some tid →
        ∃ t ∈ existing, t.id = tid ∧ o.matchedIssueIdentifier = some t.identifier) ∧
    (∀ m ∈ ms, validIndex extracted.length m = true →
      resolveMatch extracted existing m ∈ matchIssuesCore extracted existing ms ∧
      (resolveMatch extracted existing m).action = m.action) := by
  constructor
  · intro o ho _ tid htid
    obtain ⟨m, hmf, rfl⟩ := List.mem_map.1 ho
    cases hmi : m.matchedIssueIdentifier with
    | none => simp [resolveMatch, hmi] at htid
    | some s =>
      by_cases hs : s = ""
      · simp [resolveMatch, hmi, hs] at htid
      · simp only [resolveMatch, hmi, hs, if_neg hs, Option.map_eq_some'] at htid
        obtain ⟨t, hfind, hid⟩ := htid
        have hmem := List.mem_of_find?_eq_some hfind
        have hbeq := List.find?_some hfind
        rw [beq_iff_eq] at hbeq
        refine ⟨t, hmem, hid, ?_⟩
        simp [resolveMatch, hmi, hbeq]
  · intro m hm hv
    exact ⟨List.mem_map.2 ⟨m, List.mem_filter.2 ⟨hm, hv⟩, rfl⟩, rfl⟩

/-- Witness for the amended C1 on concrete data: a resolvable update entry
is kept and its set matchedIssueId names the snapshot ticket. -/
theorem c1_witness :
    (resolveMatch fixExtracted fixExisting fixEntryResolvable ∈
      matchIssuesCore fixExtracted fixExisting [fixEntryResolvable]) ∧
    ∃ t ∈ fixExisting, t.id = "lin-uuid-1" ∧
      (resolveMatch fixExtracted fixExisting fixEntryResolvable).matchedIssueIdentifier =
        some t.identifier := by
  have h := c1_matcher_target_resolution fixExtracted fixExisting [fixEntryResolvable]
  have hkeep := h.2 fixEntryResolvable (by decide) (by decide)
  exact ⟨hkeep.1, h.1 (resolveMatch fixExtracted fixExisting fixEntryResolvable) hkeep.1
    (by decide) "lin-uuid-1" (by decide)⟩

/-- Counterexample to claim C2 as stated: a model response that is valid
JSON but whose element carries the type banana, outside the issue type
enumeration, is returned successfully by the extraction response handler
instead of failing; the malformed enum value is passed through. -/
theorem c2_counterexample :
    extractIssuesStructured badIssueParse (ContentBlock.text badIssueText) =
      Except.ok (Json.arr [badIssueElem]) ∧
    wellFormedCandidate badIssueElem = false := by
  exact ⟨rfl, rfl⟩

/-- Claim C2 (amended): the extraction response handler fails, with the
source's invalid-JSON error and no partial result, exactly when the primed
response is not valid JSON; whenever the primed response parses, the
parsed value is returned unchanged with no structural validation of its
elements, so values outside the enumerations pass through silently. -/
theorem c2_extraction_no_validation (p : String → Option Json) (t : String) :
    (p ("[" ++ jsTrim t) = none →
      extractIssuesStructured p (ContentBlock.text t) =
        Except.error (ClaudeErr.invalidJson "Claude did not return valid JSON")) ∧
    (∀ j, p ("[" ++ jsTrim t) = some j →
      extractIssuesStructured p (ContentBlock.text t) = Except.ok j) := by
  constructor
  · intro h
    simp [extractIssuesStructured, h]
  · intro j h
    simp [extractIssuesStructured, h]

/-- Witness for the amended C2: both branches exercised on concrete
decoders, including the pass-through of the malformed element. -/
theorem c2_witness :
    extractIssuesStructured (fun _ => none) (ContentBlock.text "not json") =
      Except.error (ClaudeErr.invalidJson "Claude did not return valid JSON") ∧
    extractIssuesStructured badIssueParse (ContentBlock.text badIssueText) =
      Except.ok (Json.arr [badIssueElem]) := by
  exact ⟨(c2_extraction_no_validation (fun _ => none) "not json").1 rfl,
    (c2_extraction_no_validation badIssueParse badIssueText).2 (Json.arr [badIssueElem]) rfl⟩

/-- Counterexample to claim C6 as stated: on a non-text first content
block, deadline parsing does not fail with UnexpectedResponseKind; it
returns the ordinary null outcome (claude.ts lines 311 to 313 return null
instead of throwing). -/
theorem c6_counterexample :
    parseDeadlineToDate "next friday" (ContentBlock.nonText "tool_use") =
      ⟨true, none⟩ := by
  decide

/-- Claim C6 (amended): extraction, matching and both question-generation
operations fail with UnexpectedResponseKind when the completion's first
content block is not textual; deadline parsing instead returns null, the
ordinary no-deadline outcome, without raising an error. -/
theorem c6_nontext_response_handling (pJson : String → Option Json)
    (decodeM : String → Option (List MatchEntry))
    (decodeQ1 decodeQ2 : String → Option (List EnrichmentQuestion))
    (extracted : List ExtractedIssue) (existing : List Issue)
    (kind d : String) :
    extractIssuesStructured pJson (ContentBlock.nonText kind) =
      Except.error ClaudeErr.unexpectedResponseKind ∧
    matchIssuesToLinear decodeM extracted existing (ContentBlock.nonText kind) =
      Except.error ClaudeErr.unexpectedResponseKind ∧
    generateTranscriptEnrichmentQuestions decodeQ1 (ContentBlock.nonText kind) =
      Except.error ClaudeErr.unexpectedResponseKind ∧
    generateEnrichmentQuestions decodeQ2 (ContentBlock.nonText kind) =
      Except.error ClaudeErr.unexpectedResponseKind ∧
    (jsTrim d ≠ "" →
      parseDeadlineToDate d (ContentBlock.nonText kind) = ⟨true, none⟩) := by
  refine ⟨rfl, rfl, rfl, rfl, ?_⟩
  intro hd
  have hguard : ¬ (d = "" ∨ jsTrim d = "") := by
    rintro (rfl | h)
    · exact hd rfl
    · exact hd h
  simp [parseDeadlineToDate, hguard]

/-- Witness for the amended C6 on a concrete tool-use block and a
nonempty deadline phrase. -/
theorem c6_witness :
    extractIssuesStructured (fun _ => none) (ContentBlock.nonText "tool_use") =
      Except.error ClaudeErr.unexpectedResponseKind ∧
    parseDeadlineToDate "next friday" (ContentBlock.nonText "tool_use") =
      ⟨true, none⟩ := by
  have h := c6_nontext_response_handling (fun _ => none) (fun _ => none)
    (fun _ => none) (fun _ => none) [] [] "tool_use" "next friday"
  exact ⟨h.1, h.2.2.2.2 (by decide)⟩

/-- Claim C7: an empty or whitespace-only phrase yields null without
invoking the gateway; any returned date matches the strict pattern of four
digits, hyphen, two digits, hyphen, two digits; the literal null response
and any response not matching the pattern both yield null, the ordinary
recoverable outcome. -/
theorem c7_deadline_validation (d : String) (content : ContentBlock) :
    (jsTrim d = "" → parseDeadlineToDate d content = ⟨false, none⟩) ∧
    (∀ r, (parseDeadlineToDate d content).result = some r → isIsoDateFormat r = true) ∧
    (∀ t, content = ContentBlock.text t → jsTrim t = "null" →
      (parseDeadlineToDate d content).result = none) ∧
    (∀ t, content = ContentBlock.text t → isIsoDateFormat (jsTrim t) = false →
      (parseDeadlineToDate d content).result = none) := by
  refine ⟨?_, ?_, ?_, ?_⟩
  · intro h
    simp [parseDeadlineToDate, h]
  · intro r hr
    by_cases hguard : d = "" ∨ jsTrim d = ""
    · simp [parseDeadlineToDate, hguard] at hr
    · cases content with
      | nonText k => simp [parseDeadlineToDate, hguard] at hr
      | text t =>
        by_cases h1 : jsTrim t = "null"
        · simp [parseDeadlineToDate, hguard, h1] at hr
        · by_cases h2 : isIsoDateFormat (jsTrim t) = true
          · have : r = jsTrim t := by
              simp [parseDeadlineToDate, hguard, h1, h2] at hr
              exact hr.symm
            rw [this]
            exact h2
          · simp [parseDeadlineToDate, hguard, h1, h2] at hr
  · intro t hc h1
    subst hc
    by_cases hguard : d = "" ∨ jsTrim d = ""
    · simp [parseDeadlineToDate, hguard]
    · simp [parseDeadlineToDate, hguard, h1]
  · intro t hc h2
    subst hc
    by_cases hguard : d = "" ∨ jsTrim d = ""
    · simp [parseDeadlineToDate, hguard]
    · by_cases h1 : jsTrim t = "null"
      · simp [parseDeadlineToDate, hguard, h1]
      · simp [parseDeadlineToDate, hguard, h1, h2]

/-- Witness for C7: the empty phrase short-circuits without a gateway
call; a well-formed date is accepted, and the literal null and free text
both collapse to null. -/
theorem c7_witness :
    parseDeadlineToDate "" (ContentBlock.text "2025-01-17") = ⟨false, none⟩ ∧
    isIsoDateFormat "2025-01-17" = true ∧
    (parseDeadlineToDate "next friday" (ContentBlock.text "null")).result = none ∧
    (parseDeadlineToDate "next friday" (ContentBlock.text "gibberish nonsense")).result = none := by
  refine ⟨(c7_deadline_validation "" (ContentBlock.text "2025-01-17")).1 rfl, ?_, ?_, ?_⟩
  · exact (c7_deadline_validation "next friday" (ContentBlock.text "2025-01-17")).2.1
      "2025-01-17" (by decide)
  · exact (c7_deadline_validation "next friday" (ContentBlock.text "null")).2.2.1
      "null" rfl (by decide)
  · exact (c7_deadline_validation "next friday" (ContentBlock.text "gibberish nonsense")).2.2.2
      "gibberish nonsense" rfl (by decide)

/-- Helper for the fail-fast property: running the loop from any index
and accumulated results, if the loop applied to a prefix alone succeeds
with results resAcc and the step for the action following that prefix
raises, then the loop on the full sequence fails at that action with
resAcc recorded and the action's candidate title reported, for every
tail. -/
theorem execLoop_fail_after_prefix (env : ExtRequest → Except String String)
    (teamId : String) (deadlines : Nat → Option String) :
    ∀ (pre : List ProcessedIssue) (i : Nat) (res resAcc : RunResults)
      (b : ProcessedIssue) (rest : List ProcessedIssue) (e : String),
      execLoop env teamId deadlines i res pre = ExecOutcome.success resAcc →
      execStep env teamId deadlines (i + pre.length) b resAcc = Except.error e →
      execLoop env teamId deadlines i res (pre ++ b :: rest) =
        ExecOutcome.failure resAcc b.extractedIssue.title := by
  intro pre
  induction pre with
  | nil =>
    intro i res resAcc b rest e hpre hb
    rw [List.length_nil, Nat.add_zero] at hb
    have hres : res = resAcc := by
      rw [execLoop] at hpre
      exact ExecOutcome.success.inj hpre
    subst hres
    simp only [List.nil_append, execLoop, hb]
  | cons a pre ih =>
    intro i res resAcc b rest e hpre hb
    cases hstep : execStep env teamId deadlines i a res with
    | error eA =>
      rw [execLoop, hstep] at hpre
      exact absurd hpre (by simp)
    | ok res2 =>
      rw [execLoop, hstep] at hpre
      have hb2 : execStep env teamId deadlines ((i + 1) + pre.length) b resAcc =
          Except.error e := by
        have harith : (i + 1) + pre.length = i + (a :: pre).length := by
          simp [List.length_cons]
          omega
        rw [harith]
        exact hb
      rw [List.cons_append, execLoop, hstep]
      exact ih (i + 1) res2 resAcc b rest e hpre hb2

/-- Claim C4: the executor is fail-fast for every action sequence and
every first-failure position.  If the run applied to a prefix alone
succeeds with accumulated results resAcc, and the external call of the
action following that prefix raises, then the run on the full sequence
fails immediately: exactly the prefix's applied effects remain recorded
in the results, the failure names the failing candidate's title, and the
remaining actions are never attempted (the outcome does not depend on
the tail at all; the prefix may be empty, so a failure of the very first
action is covered). -/
theorem c4_executor_fail_fast (env : ExtRequest → Except String String)
    (teamId : String) (deadlines : Nat → Option String)
    (pre : List ProcessedIssue) (b : ProcessedIssue) (rest : List ProcessedIssue)
    (resAcc : RunResults) (e : String)
    (hpre : runExecutor env teamId deadlines pre = ExecOutcome.success resAcc)
    (hb : execStep env teamId deadlines pre.length b resAcc = Except.error e) :
    runExecutor env teamId deadlines (pre ++ b :: rest) =
      ExecOutcome.failure resAcc b.extractedIssue.title := by
  unfold runExecutor at hpre ⊢
  exact execLoop_fail_after_prefix env teamId deadlines pre 0 emptyResults resAcc
    b rest e hpre (by rw [Nat.zero_add]; exact hb)

/-- Witness for C4 against the stub store that fails on Issue B: the
failure is exercised at three different positions.  With one applied
action the run stops holding only Issue A's identifier; with the failing
action first nothing is recorded; with two applied actions both their
identifiers are recorded.  In each case the run names Issue B and the
tail is never reached. -/
theorem c4_witness :
    runExecutor fixEnv "team-1" (fun _ => none) [fixCreateA, fixCreateB, fixCreateC] =
      ExecOutcome.failure ⟨["ACME-Issue A"], [], []⟩ "Issue B" ∧
    runExecutor fixEnv "team-1" (fun _ => none) [fixCreateB, fixCreateA, fixCreateC] =
      ExecOutcome.failure ⟨[], [], []⟩ "Issue B" ∧
    runExecutor fixEnv "team-1" (fun _ => none) [fixCreateA, fixCreateC, fixCreateB] =
      ExecOutcome.failure ⟨["ACME-Issue A", "ACME-Issue C"], [], []⟩ "Issue B" := by
  refine ⟨?_, ?_, ?_⟩
  · exact c4_executor_fail_fast fixEnv "team-1" (fun _ => none)
      [fixCreateA] fixCreateB [fixCreateC] ⟨["ACME-Issue A"], [], []⟩
      "Linear API error" rfl rfl
  · exact c4_executor_fail_fast fixEnv "team-1" (fun _ => none)
      [] fixCreateB [fixCreateA, fixCreateC] ⟨[], [], []⟩
      "Linear API error" rfl rfl
  · exact c4_executor_fail_fast fixEnv "team-1" (fun _ => none)
      [fixCreateA, fixCreateC] fixCreateB [] ⟨["ACME-Issue A", "ACME-Issue C"], [], []⟩
      "Linear API error" rfl rfl

/-- Claim C8: the create branch of the executor maps the priority
enumeration to the integer scale low 1, medium 2, high 3, urgent 4,
attaches a due date exactly when one was resolved for this action's loop
index (absent and null both attach none), and appends the identifier
returned by the store to the created list of the results. -/
theorem c8_executor_create (env : ExtRequest → Except String String)
    (teamId : String) (deadlines : Nat → Option String) (i : Nat)
    (item : ProcessedIssue) (newId : String) (res : RunResults)
    (hact : item.action = ActionKind.create)
    (henv : env (createRequest teamId deadlines i item.extractedIssue) = Except.ok newId) :
    execLoop env teamId deadlines i res [item] =
      ExecOutcome.success { res with created := res.created ++ [newId] } ∧
    priorityMap Priority.low = 1 ∧ priorityMap Priority.medium = 2 ∧
    priorityMap Priority.high = 3 ∧ priorityMap Priority.urgent = 4 ∧
    (deadlines i = none →
      createRequest teamId deadlines i item.extractedIssue =
        ExtRequest.createReq teamId item.extractedIssue.title
          item.extractedIssue.description (priorityMap item.extractedIssue.priority) none) ∧
    (∀ dd, deadlines i = some dd → dd ≠ "" →
      createRequest teamId deadlines i item.extractedIssue =
        ExtRequest.createReq teamId item.extractedIssue.title
          item.extractedIssue.description (priorityMap item.extractedIssue.priority) (some dd)) := by
  refine ⟨?_, rfl, rfl, rfl, rfl, ?_, ?_⟩
  · obtain ⟨ei, act, mid, mii, r⟩ := item
    cases hact
    simp [execLoop, execStep, henv]
  · intro hdl
    simp [createRequest, jsTruthyStr, hdl]
  · intro dd hdl hne
    simp [createRequest, jsTruthyStr, hdl, hne]

/-- Witness for C8: a concrete create action against the stub store, once
with a resolved due date and once without. -/
theorem c8_witness :
    execLoop fixEnv "team-1" (fun _ => some "2025-01-17") 0 emptyResults [fixCreateA] =
      ExecOutcome.success ⟨["ACME-Issue A"], [], []⟩ ∧
    priorityMap Priority.low = 1 ∧ priorityMap Priority.urgent = 4 ∧
    createRequest "team-1" (fun _ => some "2025-01-17") 0 fixCreateA.extractedIssue =
      ExtRequest.createReq "team-1" "Issue A" "descA" 1 (some "2025-01-17") ∧
    createRequest "team-1" (fun _ => none) 0 fixCreateA.extractedIssue =
      ExtRequest.createReq "team-1" "Issue A" "descA" 1 none := by
  have h1 := c8_executor_create fixEnv "team-1" (fun _ => some "2025-01-17") 0
    fixCreateA "ACME-Issue A" emptyResults rfl rfl
  have h2 := c8_executor_create fixEnv "team-1" (fun _ => none) 0
    fixCreateA "ACME-Issue A" emptyResults rfl rfl
  exact ⟨h1.1, h1.2.1, h1.2.2.2.2.1,
    h1.2.2.2.2.2.2 "2025-01-17" rfl (by decide),
    h2.2.2.2.2.2.1 rfl⟩

/-- Claim C10: an update or comment action whose matchedIssueId is unset
is silently skipped: the step issues no external call and returns the
results unchanged for every environment, no error is raised, and the loop
continues with the next action at the next index. -/
theorem c10_executor_skips_unmatched (env : ExtRequest → Except String String)
    (teamId : String) (deadlines : Nat → Option String) (i : Nat)
    (res : RunResults) (item : ProcessedIssue) (rest : List ProcessedIssue)
    (hact : item.action ≠ ActionKind.create)
    (hmid : item.matchedIssueId = none) :
    execStep env teamId deadlines i item res = Except.ok res ∧
    execLoop env teamId deadlines i res (item :: rest) =
      execLoop env teamId deadlines (i + 1) res rest := by
  obtain ⟨ei, act, mid, mii, r⟩ := item
  simp only at hmid hact
  subst hmid
  have hstep : execStep env teamId deadlines i ⟨ei, act, none, mii, r⟩ res = Except.ok res := by
    cases act with
    | create => exact absurd rfl hact
    | update => rfl
    | comment => rfl
  exact ⟨hstep, by rw [execLoop, hstep]⟩

/-- Witness for C10: a concrete orphaned update action is skipped and the
loop proceeds to the next action. -/
theorem c10_witness :
    execStep fixEnv "team-1" (fun _ => none) 0 fixSkipItem emptyResults =
      Except.ok emptyResults ∧
    execLoop fixEnv "team-1" (fun _ => none) 0 emptyResults [fixSkipItem, fixCreateA] =
      execLoop fixEnv "team-1" (fun _ => none) 1 emptyResults [fixCreateA] := by
  exact c10_executor_skips_unmatched fixEnv "team-1" (fun _ => none) 0 emptyResults
    fixSkipItem [fixCreateA] (by decide) rfl
